import Mathlib

/-!
Verification development for the Singapore Family Finance Planner projection
engine (src/app.py).  Monetary quantities are modelled as rationals (the
Python code uses floats; all the properties checked here are exact
arithmetic identities, so ℚ is the idealised semantics).  Timestamps are
modelled at (absolute month, day-of-month) granularity ordered
chronologically, which is exactly the information the engine consumes:
pandas `date_range(start, periods=72, freq='M')` produces the *last* day of
each of the 72 consecutive months starting at the current month, while
`replace(day=1)` truncates a date to the *first* day of its month.
Python division, which raises `ZeroDivisionError` on a zero denominator, is
embedded as an `Option`-valued operation.
-/

namespace FinPlanner

/-- A timestamp at the granularity the engine uses: absolute month index
(`year*12 + (monthOfYear-1)`) paired with the day of month, ordered
chronologically, i.e. lexicographically. -/
abbrev Date := ℤ ×ₗ ℤ

def Date.mk (month day : ℤ) : Date := toLex (month, day)

def Date.month (d : Date) : ℤ := (ofLex d).1

def Date.day (d : Date) : ℤ := (ofLex d).2

/-- Gregorian leap-year rule, used by pandas when materialising month-end
timestamps. -/
def isLeapYear (y : ℤ) : Bool :=
  (y % 4 == 0 && y % 100 != 0) || (y % 400 == 0)

/-- Number of days of the month with absolute index `m` (its year is
`m.ediv 12`, its month-of-year `m.emod 12`, with `0` = January). -/
def daysInMonth (m : ℤ) : ℤ :=
  if m.emod 12 = 1 then (if isLeapYear (m.ediv 12) then 29 else 28)
  else if m.emod 12 = 3 ∨ m.emod 12 = 5 ∨ m.emod 12 = 8 ∨ m.emod 12 = 10 then 30
  else 31

/-- First day of month `m`: what `Timestamp.replace(day=1)` produces. -/
def monthStart (m : ℤ) : Date := Date.mk m 1

/-- Last day of month `m`: what `pd.date_range(freq='M')` produces. -/
def monthEnd (m : ℤ) : Date := Date.mk m (daysInMonth m)

/-- `Timestamp.replace(day=1)`. -/
def truncMonth (d : Date) : Date := Date.mk d.month 1

/-- The first `n` month-end timestamps starting at month `s`
(generalisation of the 72-month projection index). -/
def projAux (s : ℤ) (n : ℕ) : List Date :=
  (List.range n).map fun i : ℕ => monthEnd (s + (i : ℤ))

/-- The engine's projection index:
`pd.date_range(start=start_of_current_month, periods=72, freq='M')`, i.e.
the month-end timestamps of the 72 consecutive months starting at the
absolute month `start`. -/
def projIndex (start : ℤ) : List Date := projAux start 72

/-- src/app.py line 265: the projection dates on or after the purchase
month start. -/
def future_dates (start : ℤ) (purchase_month : Date) : List Date :=
  (projIndex start).filter fun d => decide (purchase_month ≤ d)

/-- src/app.py lines 254-273: the purchase date truncated to its month
start, snapped forward to the earliest projection date on or after it when
the truncation is not itself in the index (it never is, the index holding
month-end timestamps), and left as the month start when no projection date
is on or after it. -/
def purchaseMonthSnapped (start : ℤ) (purchase_date : Date) : Date :=
  let purchase_month := truncMonth purchase_date
  if purchase_month ∈ projIndex start then purchase_month
  else
    match (future_dates start purchase_month).min? with
    | some closest_date => closest_date
    | none => purchase_month

/-- src/app.py line 275: whether the (possibly snapped) purchase month is a
projection month, i.e. whether the housing-purchase block runs at all. -/
def purchaseActive (start : ℤ) (purchase_date : Date) : Prop :=
  purchaseMonthSnapped start purchase_date ∈ projIndex start

instance (start : ℤ) (purchase_date : Date) :
    Decidable (purchaseActive start purchase_date) :=
  inferInstanceAs (Decidable (_ ∈ _))

/-- src/app.py line 296: `df.index.get_loc(purchase_month)`, the position
of the snapped purchase month in the projection index. -/
def purchaseIdx (start : ℤ) (purchase_date : Date) : ℕ :=
  (projIndex start).indexOf (purchaseMonthSnapped start purchase_date)

/-- Python float division, which raises `ZeroDivisionError` on a zero
denominator: embedded as `none` in that case. -/
def pydiv (a b : ℚ) : Option ℚ :=
  if b = 0 then none else some (a / b)

/-- src/app.py lines 84-89: level monthly payment of an amortizing loan
(`P = L[c(1 + c)^n]/[(1 + c)^n - 1]`), with equal-principal division when
the monthly rate is zero. -/
def monthly_mortgage (loan_amount : ℚ) (loan_years : ℕ) (interest_rate : ℚ) : ℚ :=
  let monthly_interest_rate := interest_rate / 100 / 12
  let total_payments := loan_years * 12
  if 0 < monthly_interest_rate then
    loan_amount * (monthly_interest_rate * (1 + monthly_interest_rate) ^ total_payments) /
      ((1 + monthly_interest_rate) ^ total_payments - 1)
  else loan_amount / (total_payments : ℚ)

/-- src/app.py lines 107-115: tiered Buyer's Stamp Duty. -/
def calculate_bsd (price : ℚ) : ℚ :=
  if price ≤ 180000 then price * 0.01
  else if price ≤ 360000 then 180000 * 0.01 + (price - 180000) * 0.02
  else if price ≤ 1000000 then 180000 * 0.01 + 180000 * 0.02 + (price - 360000) * 0.03
  else 180000 * 0.01 + 180000 * 0.02 + 640000 * 0.03 + (price - 1000000) * 0.04

/-- The five buyer categories offered at src/app.py lines 97-99. -/
inductive BuyerStatus
  | citizenFirstHome
  | citizenAdditionalHome
  | prFirstHome
  | prAdditionalHome
  | foreigner
deriving DecidableEq

/-- src/app.py lines 121-127: the ABSD rate table. -/
def absd_rates : BuyerStatus → ℚ
  | .citizenFirstHome => 0
  | .citizenAdditionalHome => 0.17
  | .prFirstHome => 0.05
  | .prAdditionalHome => 0.25
  | .foreigner => 0.30

/-- src/app.py line 130: `absd = house_price * absd_rate`. -/
def absd (house_price : ℚ) (buyer_status : BuyerStatus) : ℚ :=
  house_price * absd_rates buyer_status

/-- src/app.py line 75: `down_payment = house_price * (down_payment_percent / 100)`. -/
def down_payment (house_price down_payment_percent : ℚ) : ℚ :=
  house_price * (down_payment_percent / 100)

/-- src/app.py line 77: `loan_amount = house_price - down_payment`. -/
def loan_amount (house_price down_payment_percent : ℚ) : ℚ :=
  house_price - down_payment house_price down_payment_percent

/-- src/app.py line 149: `total_taxes_fees = bsd + absd + legal_fees + other_fees`. -/
def total_taxes_fees (house_price : ℚ) (buyer_status : BuyerStatus)
    (legal_fees other_fees : ℚ) : ℚ :=
  calculate_bsd house_price + absd house_price buyer_status + legal_fees + other_fees

/-- The expense categories offered at src/app.py lines 366-367. -/
inductive ExpenseCategory
  | prenatalCare
  | delivery
  | confinement
  | educationFees
  | housingRelated
  | other
deriving DecidableEq

/-- One user-entered one-time expense (src/app.py lines 371-377). -/
structure OneTimeExpense where
  name : String
  amount : ℚ
  date : Date
  category : ExpenseCategory

/-- The housing mode chosen at src/app.py line 65, with its sidebar
parameters: `计划购房` (planned purchase), `已购房` (already owned, with
monthly mortgage, current property value and outstanding loan), or
`暂无购房计划` (not planned). -/
inductive Housing
  | notPlanned
  | owned (monthly_mortgage property_value outstanding_loan : ℚ)
  | planned (house_purchase_date : Date) (house_price down_payment_percent : ℚ)
      (loan_years : ℕ) (interest_rate : ℚ) (buyer_status : BuyerStatus)
      (legal_fees other_fees : ℚ)

/-- All scalar inputs of one projection run (the sidebar of src/app.py),
plus the absolute month `start` of the projection (from
`datetime.now().replace(day=1)`, line 198), the absolute month of the
child reference date, and the snapshot of the user's one-time-expense
list. -/
structure Params where
  start : ℤ
  initial_funds : ℚ
  monthly_income : ℚ
  monthly_expenses : ℚ
  monthly_child_expenses : ℚ
  annual_insurance : ℚ
  annual_tax : ℚ
  annual_bonus : ℚ
  childcare_monthly : ℚ
  preschool_monthly : ℚ
  primary_school_monthly : ℚ
  child_birth_month : ℤ
  housing : Housing
  one_time_expenses : List OneTimeExpense

/-- src/app.py lines 209-210: child age in months at projection month `i`,
computed from year and month components only, i.e. the difference of
absolute month indices. -/
def ChildAgeMonths (P : Params) (i : ℕ) : ℤ :=
  P.start + i - P.child_birth_month

/-- src/app.py line 213. -/
def MonthlyIncome (P : Params) (i : ℕ) : ℚ := P.monthly_income

/-- src/app.py lines 351-352: the annual bonus lands in December rows
(calendar month number 12). -/
def Bonus (P : Params) (i : ℕ) : ℚ :=
  if (P.start + (i : ℤ)).emod 12 + 1 = 12 then P.annual_bonus else 0

/-- src/app.py lines 326-333: childcare fee, active for
`6 <= ChildAgeMonths < 48`. -/
def ChildcareExpense (P : Params) (i : ℕ) : ℚ :=
  if 6 ≤ ChildAgeMonths P i ∧ ChildAgeMonths P i < 48 then P.childcare_monthly else 0

/-- src/app.py lines 327, 336-337: preschool fee, active for
`48 <= ChildAgeMonths < 84`. -/
def PreschoolExpense (P : Params) (i : ℕ) : ℚ :=
  if 48 ≤ ChildAgeMonths P i ∧ ChildAgeMonths P i < 84 then P.preschool_monthly else 0

/-- src/app.py lines 328, 340-341: primary-school fee, active for
`ChildAgeMonths >= 84`. -/
def PrimarySchoolExpense (P : Params) (i : ℕ) : ℚ :=
  if 84 ≤ ChildAgeMonths P i then P.primary_school_monthly else 0

/-- src/app.py line 420. -/
def TotalEducationExpenses (P : Params) (i : ℕ) : ℚ :=
  ChildcareExpense P i + PreschoolExpense P i + PrimarySchoolExpense P i

/-- src/app.py line 344: regular child expense from the reference month
onward. -/
def MonthlyChildExpenses (P : Params) (i : ℕ) : ℚ :=
  if 0 ≤ ChildAgeMonths P i then P.monthly_child_expenses else 0

/-- src/app.py lines 216, 222, 292-293: the mortgage column. Zero when no
purchase is planned; the input monthly mortgage on every row when already
owned; in planned mode, the computed payment on the rows whose index date
is on or after the (snapped) purchase month, provided the purchase is
within the horizon. -/
def MonthlyMortgage (P : Params) (i : ℕ) : ℚ :=
  match P.housing with
  | .notPlanned => 0
  | .owned mm _ _ => mm
  | .planned pd hp dpp ly ir _ _ _ =>
    if purchaseActive P.start pd then
      if purchaseMonthSnapped P.start pd ≤ monthEnd (P.start + (i : ℤ)) then
        monthly_mortgage (loan_amount hp dpp) ly ir
      else 0
    else 0

/-- src/app.py lines 405-411: contribution of the user-entered one-time
expenses to projection month `i`. Each expense is truncated to its month
start and added at that exact index label when the label is present in the
(month-end) index. -/
def userOneTime (P : Params) (i : ℕ) : ℚ :=
  (P.one_time_expenses.map fun e =>
    if truncMonth e.date ∈ projIndex P.start ∧ truncMonth e.date = monthEnd (P.start + (i : ℤ))
    then e.amount else 0).sum

/-- src/app.py lines 277-280: the down payment and purchase taxes/fees
added at the snapped purchase month in planned mode. -/
def housingOneTime (P : Params) (i : ℕ) : ℚ :=
  match P.housing with
  | .planned pd hp dpp _ _ b lf oFees =>
    if purchaseActive P.start pd then
      if purchaseMonthSnapped P.start pd = monthEnd (P.start + (i : ℤ)) then
        down_payment hp dpp + total_taxes_fees hp b lf oFees
      else 0
    else 0
  | _ => 0

/-- The `OneTimeExpenses` column: housing-injected amounts plus
user-entered amounts (src/app.py lines 257-258, 277-280, 405-417). -/
def OneTimeExpenses (P : Params) (i : ℕ) : ℚ :=
  housingOneTime P i + userOneTime P i

/-- src/app.py lines 421-424. -/
def TotalMonthlyExpenses (P : Params) (i : ℕ) : ℚ :=
  MonthlyMortgage P i + P.monthly_expenses + MonthlyChildExpenses P i +
    P.annual_insurance / 12 + P.annual_tax / 12 + TotalEducationExpenses P i +
    OneTimeExpenses P i

/-- src/app.py line 426. -/
def MonthlySavings (P : Params) (i : ℕ) : ℚ :=
  MonthlyIncome P i + Bonus P i - TotalMonthlyExpenses P i

/-- src/app.py lines 429-433: the whole column is seeded with
`initial_funds`, then rows `1..71` are overwritten in order with
`cum[i] = cum[i-1] + sav[i]`; row 0 keeps the seed. -/
def CumulativeSavings (P : Params) : ℕ → ℚ
  | 0 => P.initial_funds
  | i + 1 => CumulativeSavings P i + MonthlySavings P (i + 1)

/-- src/app.py lines 234-238 (already-owned mode): the estimated constant
monthly principal payment. `monthly_principal` starts at 0; when the
monthly mortgage is positive the code computes
`remaining_months = outstanding_loan / monthly_mortgage` and then
`monthly_principal = outstanding_loan / remaining_months` — the second
division raises `ZeroDivisionError` when the outstanding loan is 0. -/
def monthly_principal (outstanding_loan monthly_mortgage : ℚ) : Option ℚ :=
  if 0 < monthly_mortgage then
    (pydiv outstanding_loan monthly_mortgage).bind fun remaining_months =>
      pydiv outstanding_loan remaining_months
  else some 0

/-- The loop body of src/app.py lines 241-248: starting from the
outstanding loan, each later month subtracts the constant principal,
clamping at 0. -/
def loanAfter (outstanding_loan mp : ℚ) : ℕ → ℚ
  | 0 => outstanding_loan
  | i + 1 => max 0 (loanAfter outstanding_loan mp i - mp)

/-- src/app.py lines 234-248: the `OutstandingLoan` column in
already-owned mode; `none` models the run aborting with
`ZeroDivisionError`. -/
def ownedOutstandingLoan (outstanding_loan monthly_mortgage : ℚ) (i : ℕ) : Option ℚ :=
  (monthly_principal outstanding_loan monthly_mortgage).map fun mp =>
    loanAfter outstanding_loan mp i

/-- The loop body of src/app.py lines 309-318 (planned-purchase mode):
`interest = balance*c`, `principal = payment - interest`,
`balance = max(0, balance - principal)`. -/
def planLoanBal (la c mm : ℚ) : ℕ → ℚ
  | 0 => la
  | k + 1 => max 0 (planLoanBal la c mm k - (mm - planLoanBal la c mm k * c))

/-- src/app.py lines 303-318: the `OutstandingLoan` column in
planned-purchase mode. The column is initialised to 0 (line 219) and is
only written when the purchase month is in the index AND the monthly
interest rate is positive, from the purchase index onward. -/
def plannedOutstandingLoan (start : ℤ) (pd : Date) (la ir mm : ℚ) (i : ℕ) : ℚ :=
  if purchaseActive start pd then
    if 0 < ir / 100 / 12 then
      if purchaseIdx start pd ≤ i then
        planLoanBal la (ir / 100 / 12) mm (i - purchaseIdx start pd)
      else 0
    else 0
  else 0

/-- src/app.py lines 296-301: the `PropertyValue` column in
planned-purchase mode, appreciating by `(1 + 0.02/12)` per month from the
purchase index. -/
def plannedPropertyValue (start : ℤ) (pd : Date) (hp : ℚ) (i : ℕ) : ℚ :=
  if purchaseActive start pd then
    if purchaseIdx start pd ≤ i then
      hp * (1 + 0.02 / 12) ^ (i - purchaseIdx start pd)
    else 0
  else 0

/-- The `PropertyValue` column (src/app.py lines 217, 229-230, 296-301). -/
def PropertyValue (P : Params) (i : ℕ) : ℚ :=
  match P.housing with
  | .notPlanned => 0
  | .owned _ pv _ => pv * (1 + 0.02 / 12) ^ i
  | .planned pd hp _ _ _ _ _ _ => plannedPropertyValue P.start pd hp i

/-- The `OutstandingLoan` column (src/app.py lines 219, 234-248, 303-318);
`none` models the already-owned run aborting with `ZeroDivisionError`. -/
def OutstandingLoanCol (P : Params) (i : ℕ) : Option ℚ :=
  match P.housing with
  | .notPlanned => some 0
  | .owned mm _ ol => ownedOutstandingLoan ol mm i
  | .planned pd hp dpp ly ir _ _ _ =>
    some (plannedOutstandingLoan P.start pd (loan_amount hp dpp) ir
      (monthly_mortgage (loan_amount hp dpp) ly ir) i)

/-- The `PropertyEquity` column (src/app.py lines 218, 250, 320-321):
property value minus outstanding loan, written only in the owned branch
and in the active planned-purchase branch, 0 otherwise. -/
def PropertyEquity (P : Params) (i : ℕ) : Option ℚ :=
  match P.housing with
  | .notPlanned => some 0
  | .owned mm pv ol =>
    (ownedOutstandingLoan ol mm i).map fun x => pv * (1 + 0.02 / 12) ^ i - x
  | .planned pd hp dpp ly ir _ _ _ =>
    some (if purchaseActive P.start pd then
      plannedPropertyValue P.start pd hp i -
        plannedOutstandingLoan P.start pd (loan_amount hp dpp) ir
          (monthly_mortgage (loan_amount hp dpp) ly ir) i
    else 0)

/-- A parameter set with the projection starting at absolute month 0 and
everything else zeroed or inert (child reference far in the future, no
housing, no one-time expenses). Concrete instances below vary it. -/
def baseParams : Params where
  start := 0
  initial_funds := 0
  monthly_income := 0
  monthly_expenses := 0
  monthly_child_expenses := 0
  annual_insurance := 0
  annual_tax := 0
  annual_bonus := 0
  childcare_monthly := 0
  preschool_monthly := 0
  primary_school_monthly := 0
  child_birth_month := 1000
  housing := Housing.notPlanned
  one_time_expenses := []

/-- Parameter set refuting the C1 seed: positive income, so that
`MonthlySavings 0 = 1000 ≠ 0`. -/
def c1Params : Params := { baseParams with monthly_income := 1000 }

/-- Parameter set with nonzero education fees and a child born exactly at
the projection start, so that projection month `i` has child age `i`. -/
def c5Params : Params :=
  { baseParams with
    childcare_monthly := 1000
    preschool_monthly := 1200
    primary_school_monthly := 300
    child_birth_month := 0 }

/-- The BSD tier schedule exactly as worded in the claim: 1% up to
180,000; 1,800 plus 2% of the excess up to 360,000; 5,400 plus 3% of the
excess up to 1,000,000; 24,600 plus 4% of the excess above 1,000,000. -/
def bsdClaimTiers (price : ℚ) : ℚ :=
  if price ≤ 180000 then 0.01 * price
  else if price ≤ 360000 then 1800 + 0.02 * (price - 180000)
  else if price ≤ 1000000 then 5400 + 0.03 * (price - 360000)
  else 24600 + 0.04 * (price - 1000000)

/-- The next projection run after the user appends one more expense. -/
def addExpense (P : Params) (e : OneTimeExpense) : Params :=
  { P with one_time_expenses := e :: P.one_time_expenses }

/-- A one-time expense dated in month 72 (one past the horizon when the
projection starts at month 0). -/
def lateExpense : OneTimeExpense :=
  ⟨"late payment", 500, Date.mk 72 15, ExpenseCategory.other⟩

/-- Already-owned parameter set whose outstanding loan (100) is paid off
after a single 1500 payment, while the mortgage column keeps charging. -/
def c10Params : Params :=
  { baseParams with housing := Housing.owned 1500 500000 100 }

/-- Planned-purchase parameter set: purchase date 15th of absolute month 3
with the projection starting at month 0. -/
def c6Params : Params :=
  { baseParams with
    housing := Housing.planned (Date.mk 3 15) 1000000 25 20 (5 / 2)
      BuyerStatus.citizenFirstHome 6000 2000 }

theorem daysInMonth_lb (m : ℤ) : 28 ≤ daysInMonth m := by
  unfold daysInMonth; split_ifs <;> omega

theorem truncMonth_eq (d : Date) : truncMonth d = monthStart d.month := rfl

theorem Date.mk_le_mk {a b c d : ℤ} :
    Date.mk a b ≤ Date.mk c d ↔ a < c ∨ (a = c ∧ b ≤ d) := Prod.Lex.le_iff (a, b) (c, d)

theorem Date.mk_inj {a b c d : ℤ} :
    Date.mk a b = Date.mk c d ↔ a = c ∧ b = d := by
  unfold Date.mk
  constructor
  · intro h
    have h2 : ((a, b) : ℤ × ℤ) = (c, d) := by
      simpa using congrArg (fun x => ofLex x) h
    exact Prod.mk.injEq .. ▸ h2
  · rintro ⟨rfl, rfl⟩; rfl

theorem monthStart_le_monthEnd {p m : ℤ} : monthStart p ≤ monthEnd m ↔ p ≤ m := by
  rw [monthStart, monthEnd, Date.mk_le_mk]
  have := daysInMonth_lb m
  omega

theorem monthEnd_le_monthEnd {a b : ℤ} : monthEnd a ≤ monthEnd b ↔ a ≤ b := by
  rw [monthEnd, monthEnd, Date.mk_le_mk]
  constructor
  · rintro (h | ⟨rfl, -⟩) <;> omega
  · intro h
    rcases lt_or_eq_of_le h with h2 | rfl
    · exact Or.inl h2
    · exact Or.inr ⟨rfl, le_refl _⟩

theorem monthEnd_inj {a b : ℤ} : monthEnd a = monthEnd b ↔ a = b := by
  rw [monthEnd, monthEnd, Date.mk_inj]
  constructor
  · rintro ⟨rfl, -⟩; rfl
  · rintro rfl; exact ⟨rfl, rfl⟩

theorem monthStart_ne_monthEnd (p m : ℤ) : monthStart p ≠ monthEnd m := by
  rw [monthStart, monthEnd, Ne, Date.mk_inj]
  have := daysInMonth_lb m
  rintro ⟨-, h⟩; omega

theorem month_monthEnd (m : ℤ) : (monthEnd m).month = m := rfl

theorem projAux_succ (s : ℤ) (n : ℕ) :
    projAux s (n + 1) = monthEnd s :: projAux (s + 1) n := by
  unfold projAux
  rw [List.range_succ_eq_map, List.map_cons, List.map_map]
  refine congrArg₂ _ (by norm_num) (List.map_congr_left fun a _ => ?_)
  show monthEnd (s + (a + 1 : ℕ)) = monthEnd (s + 1 + a)
  refine congrArg monthEnd ?_
  push_cast; ring

theorem mem_projAux {d : Date} {s : ℤ} {n : ℕ} :
    d ∈ projAux s n ↔ ∃ i : ℕ, i < n ∧ monthEnd (s + i) = d := by
  simp [projAux]

theorem mem_projIndex {d : Date} {start : ℤ} :
    d ∈ projIndex start ↔ ∃ i : ℕ, i < 72 ∧ monthEnd (start + i) = d :=
  mem_projAux

theorem monthStart_not_mem_projIndex (p start : ℤ) :
    monthStart p ∉ projIndex start := by
  rw [mem_projIndex]
  rintro ⟨i, -, h⟩
  exact monthStart_ne_monthEnd p (start + i) h.symm

theorem foldl_min_eq_self {a : Date} {l : List Date} (h : ∀ b ∈ l, a ≤ b) :
    l.foldl min a = a := by
  induction l with
  | nil => rfl
  | cons b t ih =>
    have hab : min a b = a := min_eq_left (h b (List.mem_cons_self b t))
    rw [List.foldl_cons, hab]
    exact ih fun c hc => h c (List.mem_cons_of_mem b hc)

theorem min?_cons_eq {a : Date} {l : List Date} (h : ∀ b ∈ l, a ≤ b) :
    (a :: l).min? = some a := by
  rw [show (a :: l).min? = some (l.foldl min a) from rfl]
  exact congrArg some (foldl_min_eq_self h)

/-- `min` over the projection dates on or after the start of month `p`
(the computation at src/app.py lines 265-271):
it is the month-end of month `max s p` when that is still in range. -/
theorem min?_filter_projAux (p s : ℤ) (n : ℕ) :
    ((projAux s n).filter fun d => decide (monthStart p ≤ d)).min? =
      if 0 < n ∧ p < s + n then some (monthEnd (max s p)) else none := by
  induction n generalizing s with
  | zero => simp [projAux]
  | succ n ih =>
    rw [projAux_succ]
    by_cases hps : p ≤ s
    · rw [List.filter_cons_of_pos (by simpa using monthStart_le_monthEnd.mpr hps)]
      rw [min?_cons_eq ?ha]
      case ha =>
        intro b hb
        obtain ⟨i, -, rfl⟩ := mem_projAux.mp (List.mem_filter.mp hb).1
        exact monthEnd_le_monthEnd.mpr (by omega)
      rw [if_pos ⟨Nat.succ_pos n, by push_cast; omega⟩, max_eq_left hps]
    · rw [List.filter_cons_of_neg (by simpa using fun h => hps (monthStart_le_monthEnd.mp h))]
      rw [ih (s + 1)]
      have hmax : max (s + 1) p = max s p := by omega
      rcases Nat.eq_zero_or_pos n with rfl | hn
      · rw [if_neg (by omega), if_neg (by push_cast; omega)]
      · by_cases hp : p < s + 1 + n
        · rw [if_pos ⟨hn, hp⟩, if_pos ⟨Nat.succ_pos n, by push_cast; omega⟩, hmax]
        · rw [if_neg (by omega), if_neg (by push_cast; omega)]

theorem date_indexOf_cons_self (a : Date) (l : List Date) :
    (a :: l).indexOf a = 0 := by
  simp [List.indexOf, List.findIdx_cons]

theorem date_indexOf_cons_ne {a b : Date} (l : List Date) (h : b ≠ a) :
    (b :: l).indexOf a = l.indexOf a + 1 := by
  have hb : (b == a) = false := by simpa using h
  simp [List.indexOf, List.findIdx_cons, hb]

theorem indexOf_projAux (s : ℤ) (n k : ℕ) (hk : k < n) :
    (projAux s n).indexOf (monthEnd (s + k)) = k := by
  induction n generalizing s k with
  | zero => omega
  | succ n ih =>
    rw [projAux_succ]
    match k with
    | 0 =>
      rw [show ((0 : ℕ) : ℤ) = 0 from rfl, add_zero]
      exact date_indexOf_cons_self (monthEnd s) _
    | k + 1 =>
      have hne : monthEnd s ≠ monthEnd (s + (k + 1 : ℕ)) := by
        rw [Ne, monthEnd_inj]; push_cast; omega
      rw [date_indexOf_cons_ne _ hne]
      have : monthEnd (s + (k + 1 : ℕ)) = monthEnd (s + 1 + k) := by
        refine congrArg monthEnd ?_; push_cast; ring
      rw [this, ih (s + 1) k (by omega)]

theorem purchaseMonthSnapped_eq (start : ℤ) (pd : Date) :
    purchaseMonthSnapped start pd =
      if pd.month < start + 72 then monthEnd (max start pd.month)
      else monthStart pd.month := by
  unfold purchaseMonthSnapped
  rw [truncMonth_eq, if_neg (monthStart_not_mem_projIndex _ _)]
  have h := min?_filter_projAux pd.month start 72
  rw [show future_dates start (monthStart pd.month) =
      (projAux start 72).filter (fun d => decide (monthStart pd.month ≤ d)) from rfl, h]
  by_cases hm : pd.month < start + 72
  · rw [if_pos (show (0 : ℕ) < 72 ∧ pd.month < start + (72 : ℕ) by
        refine ⟨by norm_num, ?_⟩; exact_mod_cast hm), if_pos hm]
  · rw [if_neg (by push_cast; omega), if_neg hm]

theorem purchaseActive_iff (start : ℤ) (pd : Date) :
    purchaseActive start pd ↔ pd.month < start + 72 := by
  unfold purchaseActive
  rw [purchaseMonthSnapped_eq]
  by_cases hm : pd.month < start + 72
  · rw [if_pos hm]
    refine iff_of_true (mem_projIndex.mpr ⟨(max start pd.month - start).toNat, by omega, ?_⟩) hm
    refine congrArg monthEnd ?_; omega
  · rw [if_neg hm]
    exact iff_of_false (monthStart_not_mem_projIndex _ _) hm

theorem purchaseIdx_eq (start : ℤ) (pd : Date) (h : pd.month < start + 72) :
    purchaseIdx start pd = (max start pd.month - start).toNat := by
  unfold purchaseIdx
  rw [purchaseMonthSnapped_eq, if_pos h]
  have hmax : max start pd.month = start + ((max start pd.month - start).toNat : ℤ) := by omega
  rw [show monthEnd (max start pd.month) =
        monthEnd (start + ((max start pd.month - start).toNat : ℤ)) from congrArg monthEnd hmax]
  exact indexOf_projAux start 72 _ (by omega)

theorem purchaseMonthSnapped_le_iff (start : ℤ) (pd : Date) (h : pd.month < start + 72)
    (i : ℕ) : purchaseMonthSnapped start pd ≤ monthEnd (start + i) ↔ purchaseIdx start pd ≤ i := by
  rw [purchaseMonthSnapped_eq, if_pos h, purchaseIdx_eq start pd h, monthEnd_le_monthEnd]
  omega

theorem purchaseMonthSnapped_eq_monthEnd_iff (start : ℤ) (pd : Date) (h : pd.month < start + 72)
    (i : ℕ) : purchaseMonthSnapped start pd = monthEnd (start + i) ↔ purchaseIdx start pd = i := by
  rw [purchaseMonthSnapped_eq, if_pos h, purchaseIdx_eq start pd h, monthEnd_inj]
  omega

/-- Every user-entered one-time expense contributes 0 to every projection
month: the expense is truncated to a month START (`replace(day=1)`) but the
index holds month-END timestamps (`freq='M'`), so the membership test at
src/app.py line 408 never succeeds. -/
theorem userOneTime_eq_zero (P : Params) (i : ℕ) : userOneTime P i = 0 := by
  unfold userOneTime
  refine List.sum_eq_zero ?_
  intro x hx
  obtain ⟨e, -, rfl⟩ := List.mem_map.mp hx
  rw [if_neg]
  rintro ⟨-, h⟩
  exact monthStart_ne_monthEnd e.date.month (P.start + i) (truncMonth_eq e.date ▸ h)

/-- C2, divergence witness: the code adds each user-entered one-time
expense only at the exact index label `expense_date.replace(day=1)`
(src/app.py lines 405-411, with no snapping), and that month-start label is
never among the month-end labels of `df.index`, so every user-entered
expense — in-horizon or not — is added to NO projection month, contradicting
the claim that an in-horizon expense is added to exactly one month. -/
theorem claim2_user_expense_never_added (P : Params) (i : ℕ) :
    userOneTime P i = 0 :=
  userOneTime_eq_zero P i

/-- C1, counterexample: with income 1000 and all expenses zero,
`MonthlySavings[0] = 1000` but `CumulativeSavings[0]` is the initial funds
(0) — month 0 is NOT `initialFunds + monthlySavings[0]` (src/app.py line
429 seeds the whole column and the loop at 432 starts at i = 1). -/
theorem claim1_counterexample :
    CumulativeSavings c1Params 0 ≠ c1Params.initial_funds + MonthlySavings c1Params 0 := by
  have h0 : CumulativeSavings c1Params 0 = 0 := rfl
  have hs : MonthlySavings c1Params 0 = 1000 := by
    norm_num [MonthlySavings, MonthlyIncome, Bonus, TotalMonthlyExpenses, MonthlyMortgage,
      MonthlyChildExpenses, TotalEducationExpenses, ChildcareExpense, PreschoolExpense,
      PrimarySchoolExpense, ChildAgeMonths, OneTimeExpenses, housingOneTime, userOneTime,
      c1Params, baseParams]
  rw [h0, hs]
  norm_num [c1Params, baseParams]

/-- C1 (amended): for all `i > 0`,
`cumulativeSavings[i] = cumulativeSavings[i-1] + monthlySavings[i]`, and the
seed is `cumulativeSavings[0] = initialFunds` (the month-0 savings are NOT
added). -/
theorem claim1_cumulative_recurrence (P : Params) (i : ℕ) (h0 : 0 < i) (h72 : i < 72) :
    CumulativeSavings P i = CumulativeSavings P (i - 1) + MonthlySavings P i ∧
    CumulativeSavings P 0 = P.initial_funds := by
  refine ⟨?_, rfl⟩
  match i, h0 with
  | i + 1, _ => simp [CumulativeSavings]

theorem claim1_witness :
    0 < 1 ∧ 1 < 72 ∧
    CumulativeSavings c1Params 1 = CumulativeSavings c1Params 0 + MonthlySavings c1Params 1 ∧
    CumulativeSavings c1Params 0 = c1Params.initial_funds :=
  ⟨by norm_num, by norm_num,
    (claim1_cumulative_recurrence c1Params 1 (by norm_num) (by norm_num)).1,
    (claim1_cumulative_recurrence c1Params 1 (by norm_num) (by norm_num)).2⟩

/-- C4: for every house price ≥ 0 and buyer category, `calculate_bsd`
agrees with the claim's four-tier schedule, ABSD is `price × rate` with the
claimed rate table, `BSD(1,000,000) = 24,600`, and ABSD for a citizen first
home is 0. -/
theorem claim4_stamp_duty (price : ℚ) (hprice : 0 ≤ price) (b : BuyerStatus) :
    calculate_bsd price = bsdClaimTiers price ∧
    absd price b = price * absd_rates b ∧
    absd_rates BuyerStatus.citizenFirstHome = 0 ∧
    absd_rates BuyerStatus.citizenAdditionalHome = 17 / 100 ∧
    absd_rates BuyerStatus.prFirstHome = 5 / 100 ∧
    absd_rates BuyerStatus.prAdditionalHome = 25 / 100 ∧
    absd_rates BuyerStatus.foreigner = 30 / 100 ∧
    calculate_bsd 1000000 = 24600 ∧
    absd 1000000 BuyerStatus.citizenFirstHome = 0 := by
  refine ⟨?_, rfl, by norm_num [absd_rates], by norm_num [absd_rates],
    by norm_num [absd_rates], by norm_num [absd_rates], by norm_num [absd_rates],
    by norm_num [calculate_bsd], by norm_num [absd, absd_rates]⟩
  unfold calculate_bsd bsdClaimTiers
  split_ifs <;> ring

theorem claim4_witness :
    (0 : ℚ) ≤ 1000000 ∧ calculate_bsd 1000000 = 24600 ∧
    absd 1000000 BuyerStatus.citizenFirstHome = 0 :=
  ⟨by norm_num,
    (claim4_stamp_duty 1000000 (by norm_num) BuyerStatus.citizenFirstHome).2.2.2.2.2.2.2.1,
    (claim4_stamp_duty 1000000 (by norm_num) BuyerStatus.citizenFirstHome).2.2.2.2.2.2.2.2⟩

/-- C5: per month at most one of the three education fees is nonzero, and
(for nonzero fee parameters) the active tier is exactly the half-open
age-interval table: childcare iff `6 ≤ age < 48`, preschool iff
`48 ≤ age < 84`, primary iff `age ≥ 84`, and no fee below age 6 months. -/
theorem claim5_education_tiers (P : Params) (i : ℕ) :
    ((ChildcareExpense P i ≠ 0 → PreschoolExpense P i = 0 ∧ PrimarySchoolExpense P i = 0) ∧
     (PreschoolExpense P i ≠ 0 → ChildcareExpense P i = 0 ∧ PrimarySchoolExpense P i = 0) ∧
     (PrimarySchoolExpense P i ≠ 0 → ChildcareExpense P i = 0 ∧ PreschoolExpense P i = 0)) ∧
    (P.childcare_monthly ≠ 0 →
      (ChildcareExpense P i ≠ 0 ↔ 6 ≤ ChildAgeMonths P i ∧ ChildAgeMonths P i < 48)) ∧
    (P.preschool_monthly ≠ 0 →
      (PreschoolExpense P i ≠ 0 ↔ 48 ≤ ChildAgeMonths P i ∧ ChildAgeMonths P i < 84)) ∧
    (P.primary_school_monthly ≠ 0 →
      (PrimarySchoolExpense P i ≠ 0 ↔ 84 ≤ ChildAgeMonths P i)) ∧
    (ChildAgeMonths P i < 6 →
      ChildcareExpense P i = 0 ∧ PreschoolExpense P i = 0 ∧ PrimarySchoolExpense P i = 0) := by
  have hreg : ChildAgeMonths P i < 6 ∨ (6 ≤ ChildAgeMonths P i ∧ ChildAgeMonths P i < 48) ∨
      (48 ≤ ChildAgeMonths P i ∧ ChildAgeMonths P i < 84) ∨ 84 ≤ ChildAgeMonths P i := by omega
  rcases hreg with h | h | h | h
  · have e1 : ChildcareExpense P i = 0 := by unfold ChildcareExpense; rw [if_neg (by omega)]
    have e2 : PreschoolExpense P i = 0 := by unfold PreschoolExpense; rw [if_neg (by omega)]
    have e3 : PrimarySchoolExpense P i = 0 := by unfold PrimarySchoolExpense; rw [if_neg (by omega)]
    rw [e1, e2, e3]
    exact ⟨⟨fun hq => absurd rfl hq, fun hq => absurd rfl hq, fun hq => absurd rfl hq⟩,
      fun _ => iff_of_false (fun hq => hq rfl) (by omega),
      fun _ => iff_of_false (fun hq => hq rfl) (by omega),
      fun _ => iff_of_false (fun hq => hq rfl) (by omega),
      fun _ => ⟨rfl, rfl, rfl⟩⟩
  · have e1 : ChildcareExpense P i = P.childcare_monthly := by
      unfold ChildcareExpense; rw [if_pos h]
    have e2 : PreschoolExpense P i = 0 := by unfold PreschoolExpense; rw [if_neg (by omega)]
    have e3 : PrimarySchoolExpense P i = 0 := by unfold PrimarySchoolExpense; rw [if_neg (by omega)]
    rw [e1, e2, e3]
    exact ⟨⟨fun _ => ⟨rfl, rfl⟩, fun hq => absurd rfl hq, fun hq => absurd rfl hq⟩,
      fun hm => iff_of_true hm h,
      fun _ => iff_of_false (fun hq => hq rfl) (by omega),
      fun _ => iff_of_false (fun hq => hq rfl) (by omega),
      fun hlt => absurd hlt (by omega)⟩
  · have e1 : ChildcareExpense P i = 0 := by unfold ChildcareExpense; rw [if_neg (by omega)]
    have e2 : PreschoolExpense P i = P.preschool_monthly := by
      unfold PreschoolExpense; rw [if_pos h]
    have e3 : PrimarySchoolExpense P i = 0 := by unfold PrimarySchoolExpense; rw [if_neg (by omega)]
    rw [e1, e2, e3]
    exact ⟨⟨fun hq => absurd rfl hq, fun _ => ⟨rfl, rfl⟩, fun hq => absurd rfl hq⟩,
      fun _ => iff_of_false (fun hq => hq rfl) (by omega),
      fun hm => iff_of_true hm h,
      fun _ => iff_of_false (fun hq => hq rfl) (by omega),
      fun hlt => absurd hlt (by omega)⟩
  · have e1 : ChildcareExpense P i = 0 := by unfold ChildcareExpense; rw [if_neg (by omega)]
    have e2 : PreschoolExpense P i = 0 := by unfold PreschoolExpense; rw [if_neg (by omega)]
    have e3 : PrimarySchoolExpense P i = P.primary_school_monthly := by
      unfold PrimarySchoolExpense; rw [if_pos h]
    rw [e1, e2, e3]
    exact ⟨⟨fun hq => absurd rfl hq, fun hq => absurd rfl hq, fun _ => ⟨rfl, rfl⟩⟩,
      fun _ => iff_of_false (fun hq => hq rfl) (by omega),
      fun _ => iff_of_false (fun hq => hq rfl) (by omega),
      fun hm => iff_of_true hm h,
      fun hlt => absurd hlt (by omega)⟩

theorem claim5_witness :
    ((ChildcareExpense c5Params 5 ≠ 0 →
        PreschoolExpense c5Params 5 = 0 ∧ PrimarySchoolExpense c5Params 5 = 0) ∧
     (PreschoolExpense c5Params 5 ≠ 0 →
        ChildcareExpense c5Params 5 = 0 ∧ PrimarySchoolExpense c5Params 5 = 0) ∧
     (PrimarySchoolExpense c5Params 5 ≠ 0 →
        ChildcareExpense c5Params 5 = 0 ∧ PreschoolExpense c5Params 5 = 0)) ∧
    (c5Params.childcare_monthly ≠ 0 →
      (ChildcareExpense c5Params 5 ≠ 0 ↔
        6 ≤ ChildAgeMonths c5Params 5 ∧ ChildAgeMonths c5Params 5 < 48)) ∧
    (c5Params.preschool_monthly ≠ 0 →
      (PreschoolExpense c5Params 5 ≠ 0 ↔
        48 ≤ ChildAgeMonths c5Params 5 ∧ ChildAgeMonths c5Params 5 < 84)) ∧
    (c5Params.primary_school_monthly ≠ 0 →
      (PrimarySchoolExpense c5Params 5 ≠ 0 ↔ 84 ≤ ChildAgeMonths c5Params 5)) ∧
    (ChildAgeMonths c5Params 5 < 6 →
      ChildcareExpense c5Params 5 = 0 ∧ PreschoolExpense c5Params 5 = 0 ∧
        PrimarySchoolExpense c5Params 5 = 0) :=
  claim5_education_tiers c5Params 5

/-- C7, counterexample: in already-owned mode with a positive monthly
mortgage (1500) and a zero outstanding loan, the principal estimate divides
by `remaining_months = 0/1500 = 0` and the run aborts with
`ZeroDivisionError` (here: `none`), so the claimed linear balance schedule
does not exist for this input. -/
theorem claim7_counterexample : ownedOutstandingLoan 0 1500 1 = none := by
  norm_num [ownedOutstandingLoan, monthly_principal, pydiv]

/-- C7 (amended): with `monthlyMortgage = 0` there is no division and the
outstanding loan is constant at its (nonnegative) starting value for every
month; with `monthlyMortgage > 0` AND `outstandingLoan > 0` the balance
follows the linear schedule with constant reduction
`outstandingLoan / (outstandingLoan / monthlyMortgage)`, clamped at 0. -/
theorem claim7_known_balance (L M : ℚ) (hL : 0 ≤ L) :
    (M = 0 → ∀ i, ownedOutstandingLoan L M i = some L) ∧
    (0 < M → 0 < L →
      monthly_principal L M = some (L / (L / M)) ∧
      ∀ i, ownedOutstandingLoan L M i = some (loanAfter L (L / (L / M)) i) ∧
        loanAfter L (L / (L / M)) (i + 1) =
          max 0 (loanAfter L (L / (L / M)) i - L / (L / M))) := by
  constructor
  · rintro rfl i
    have hmp : monthly_principal L 0 = some 0 := by
      unfold monthly_principal
      rw [if_neg (lt_irrefl 0)]
    have hconst : ∀ j, loanAfter L 0 j = L := by
      intro j
      induction j with
      | zero => rfl
      | succ n ih =>
        show max 0 (loanAfter L 0 n - 0) = L
        rw [ih, sub_zero, max_eq_right hL]
    unfold ownedOutstandingLoan
    rw [hmp]
    simp [hconst]
  · intro hM hL2
    have hM0 : M ≠ 0 := ne_of_gt hM
    have hLM : L / M ≠ 0 := div_ne_zero (ne_of_gt hL2) hM0
    have hmp : monthly_principal L M = some (L / (L / M)) := by
      unfold monthly_principal pydiv
      rw [if_pos hM, if_neg hM0]
      simp [hLM]
    refine ⟨hmp, fun i => ⟨?_, rfl⟩⟩
    unfold ownedOutstandingLoan
    rw [hmp]
    rfl

theorem claim7_witness :
    (0 : ℚ) ≤ 3000 ∧ (0 : ℚ) < 1500 ∧ (0 : ℚ) < 3000 ∧
    monthly_principal 3000 1500 = some (3000 / (3000 / 1500)) ∧
    ownedOutstandingLoan 3000 1500 1 = some (loanAfter 3000 (3000 / (3000 / 1500)) 1) :=
  ⟨by norm_num, by norm_num, by norm_num,
    ((claim7_known_balance 3000 1500 (by norm_num)).2 (by norm_num) (by norm_num)).1,
    (((claim7_known_balance 3000 1500 (by norm_num)).2 (by norm_num) (by norm_num)).2 1).1⟩

/-- C9, counterexample: at `outstandingLoan = 0`, `monthlyMortgage = 100`
the "constant monthly principal reduction" is not `monthlyMortgage`: the
code raises `ZeroDivisionError` (here: the computation is `none`, not
`some 100`). -/
theorem claim9_counterexample : monthly_principal 0 100 ≠ some 100 := by
  have h : monthly_principal 0 100 = none := by
    norm_num [monthly_principal, pydiv]
  rw [h]
  exact fun hc => Option.noConfusion hc

/-- C9 (amended): with `outstandingLoan > 0` and `monthlyMortgage > 0` the
derived reduction `outstandingLoan / (outstandingLoan / monthlyMortgage)`
is exactly `monthlyMortgage`, so the balance decreases by the full payment
each month, clamped at 0. -/
theorem claim9_principal_is_full_payment (L M : ℚ) (hL : 0 < L) (hM : 0 < M) :
    monthly_principal L M = some M ∧
    (∀ i, ownedOutstandingLoan L M i = some (loanAfter L M i)) ∧
    (∀ i, loanAfter L M (i + 1) = max 0 (loanAfter L M i - M)) := by
  have hsimp : L / (L / M) = M := by
    rw [div_div_eq_mul_div, mul_comm, mul_div_assoc, div_self (ne_of_gt hL), mul_one]
  have hmp : monthly_principal L M = some M := by
    unfold monthly_principal pydiv
    rw [if_pos hM, if_neg (ne_of_gt hM)]
    simp [div_ne_zero (ne_of_gt hL) (ne_of_gt hM), hsimp]
  refine ⟨hmp, fun i => ?_, fun i => rfl⟩
  unfold ownedOutstandingLoan
  rw [hmp]
  rfl

theorem claim9_witness :
    (0 : ℚ) < 200 ∧ (0 : ℚ) < 80 ∧
    monthly_principal 200 80 = some 80 ∧
    ownedOutstandingLoan 200 80 2 = some (loanAfter 200 80 2) :=
  ⟨by norm_num, by norm_num,
    (claim9_principal_is_full_payment 200 80 (by norm_num) (by norm_num)).1,
    (claim9_principal_is_full_payment 200 80 (by norm_num) (by norm_num)).2.1 2⟩

/-- C8: a one-time expense dated beyond the 72-month horizon contributes
to no month: appending it changes neither any month's one-time-expense
value nor the total over all 72 months, and the (total) computation raises
nothing. -/
theorem claim8_beyond_horizon_dropped (P : Params) (e : OneTimeExpense)
    (hbeyond : P.start + 71 < (truncMonth e.date).month) :
    (∀ i, i < 72 → OneTimeExpenses (addExpense P e) i = OneTimeExpenses P i) ∧
    ((List.range 72).map fun i => OneTimeExpenses (addExpense P e) i).sum =
      ((List.range 72).map fun i => OneTimeExpenses P i).sum := by
  have hfun : ∀ i, OneTimeExpenses (addExpense P e) i = OneTimeExpenses P i := by
    intro i
    unfold OneTimeExpenses
    rw [userOneTime_eq_zero, userOneTime_eq_zero]
    rfl
  exact ⟨fun i _ => hfun i, by simp only [hfun]⟩

theorem claim8_witness :
    baseParams.start + 71 < (truncMonth lateExpense.date).month ∧
    OneTimeExpenses (addExpense baseParams lateExpense) 0 = OneTimeExpenses baseParams 0 :=
  ⟨by decide,
    (claim8_beyond_horizon_dropped baseParams lateExpense (by decide)).1 0 (by norm_num)⟩

/-- C10: in both mortgage modes the mortgage column equals the full
payment on every month from activation (month 0 when already owned, the
snapped purchase index when planned) through month 71 — the outstanding
balance, even once 0, never stops or shrinks it — and the total monthly
expense always includes that full payment. -/
theorem claim10_payment_never_stops (P : Params) :
    (∀ mm pv ol, P.housing = Housing.owned mm pv ol →
      ∀ i, i < 72 →
        MonthlyMortgage P i = mm ∧
        TotalMonthlyExpenses P i =
          mm + P.monthly_expenses + MonthlyChildExpenses P i + P.annual_insurance / 12 +
            P.annual_tax / 12 + TotalEducationExpenses P i + OneTimeExpenses P i ∧
        (ownedOutstandingLoan ol mm i = some 0 → MonthlyMortgage P i = mm)) ∧
    (∀ pd hp dpp ly ir b lf oFees,
      P.housing = Housing.planned pd hp dpp ly ir b lf oFees →
      purchaseActive P.start pd →
      ∀ i, purchaseIdx P.start pd ≤ i → i < 72 →
        MonthlyMortgage P i = monthly_mortgage (loan_amount hp dpp) ly ir ∧
        TotalMonthlyExpenses P i =
          monthly_mortgage (loan_amount hp dpp) ly ir + P.monthly_expenses +
            MonthlyChildExpenses P i + P.annual_insurance / 12 + P.annual_tax / 12 +
            TotalEducationExpenses P i + OneTimeExpenses P i) := by
  constructor
  · intro mm pv ol hH i hi
    have hm : MonthlyMortgage P i = mm := by
      simp only [MonthlyMortgage, hH]
    exact ⟨hm, by unfold TotalMonthlyExpenses; rw [hm], fun _ => hm⟩
  · intro pd hp dpp ly ir b lf oFees hH hact i hpi hi
    have hin : pd.month < P.start + 72 := (purchaseActive_iff P.start pd).mp hact
    have hle : purchaseMonthSnapped P.start pd ≤ monthEnd (P.start + (i : ℤ)) :=
      (purchaseMonthSnapped_le_iff P.start pd hin i).mpr hpi
    have hm : MonthlyMortgage P i = monthly_mortgage (loan_amount hp dpp) ly ir := by
      simp only [MonthlyMortgage, hH]
      rw [if_pos hact, if_pos hle]
    exact ⟨hm, by unfold TotalMonthlyExpenses; rw [hm]⟩

theorem claim10_witness :
    ownedOutstandingLoan 100 1500 1 = some 0 ∧ MonthlyMortgage c10Params 1 = 1500 := by
  have hbal : ownedOutstandingLoan 100 1500 1 = some 0 := by
    norm_num [ownedOutstandingLoan, monthly_principal, pydiv, loanAfter]
  exact ⟨hbal,
    (((claim10_payment_never_stops c10Params).1 1500 500000 100 rfl 1 (by norm_num)).2.2) hbal⟩

/-- C3, counterexample: at a zero interest rate the code still computes
the equal-principal payment (1200/60 = 20) but never writes the
`OutstandingLoan` column (the amortization loop at src/app.py line 308 is
guarded by `monthly_interest_rate > 0`), so the balance at the purchase
month is 0, not the loan amount 1200 the claim requires. -/
theorem claim3_counterexample :
    plannedOutstandingLoan 0 (Date.mk 0 1) 1200 0 (monthly_mortgage 1200 5 0) 0 ≠ 1200 ∧
    monthly_mortgage 1200 5 0 = 20 := by
  constructor
  · have h : plannedOutstandingLoan 0 (Date.mk 0 1) 1200 0 (monthly_mortgage 1200 5 0) 0 = 0 := by
      unfold plannedOutstandingLoan
      norm_num
    rw [h]
    norm_num
  · norm_num [monthly_mortgage]

/-- C3 (amended): the level payment equals the standard amortizing-loan
formula when `c > 0` and `loanAmount/n` (no division by zero) when
`c = 0`; the outstanding balance satisfies `balance = loanAmount` at the
purchase month and the `max(0, prev - (payment - prev*c))` recurrence for
later projection months WHEN `c > 0`; when `c = 0` the code does not track
the balance and the column stays 0. -/
theorem claim3_amortization (la : ℚ) (ly : ℕ) (ir : ℚ) (start : ℤ) (pd : Date)
    (hla : 0 ≤ la) (hly1 : 5 ≤ ly) (hly2 : ly ≤ 30) :
    (0 < ir / 100 / 12 →
      monthly_mortgage la ly ir =
        la * (ir / 100 / 12) * (1 + ir / 100 / 12) ^ (ly * 12) /
          ((1 + ir / 100 / 12) ^ (ly * 12) - 1) ∧
      (1 + ir / 100 / 12) ^ (ly * 12) - 1 ≠ 0) ∧
    (ir / 100 / 12 = 0 →
      monthly_mortgage la ly ir = la / ((ly * 12 : ℕ) : ℚ) ∧ ((ly * 12 : ℕ) : ℚ) ≠ 0) ∧
    (0 < ir / 100 / 12 → purchaseActive start pd →
      plannedOutstandingLoan start pd la ir (monthly_mortgage la ly ir)
          (purchaseIdx start pd) = la ∧
      ∀ i, purchaseIdx start pd < i → i < 72 →
        plannedOutstandingLoan start pd la ir (monthly_mortgage la ly ir) i =
          max 0 (plannedOutstandingLoan start pd la ir (monthly_mortgage la ly ir) (i - 1) -
            (monthly_mortgage la ly ir -
              plannedOutstandingLoan start pd la ir (monthly_mortgage la ly ir) (i - 1) *
                (ir / 100 / 12)))) ∧
    (ir / 100 / 12 = 0 →
      ∀ i, plannedOutstandingLoan start pd la ir (monthly_mortgage la ly ir) i = 0) := by
  refine ⟨?_, ?_, ?_, ?_⟩
  · intro hc
    constructor
    · simp only [monthly_mortgage]
      rw [if_pos hc]
      ring
    · have h1 : (1 : ℚ) < 1 + ir / 100 / 12 := by linarith
      have h2 : (1 : ℚ) < (1 + ir / 100 / 12) ^ (ly * 12) := one_lt_pow₀ h1 (by omega)
      exact sub_ne_zero_of_ne (ne_of_gt h2)
  · intro hc
    constructor
    · simp only [monthly_mortgage]
      rw [hc, if_neg (lt_irrefl 0)]
    · exact Nat.cast_ne_zero.mpr (by omega)
  · intro hc hact
    constructor
    · unfold plannedOutstandingLoan
      rw [if_pos hact, if_pos hc, if_pos (le_refl _), Nat.sub_self]
      rfl
    · intro i h1 h2
      unfold plannedOutstandingLoan
      rw [if_pos hact, if_pos hc, if_pos (by omega : purchaseIdx start pd ≤ i),
        if_pos hact, if_pos hc, if_pos (by omega : purchaseIdx start pd ≤ i - 1)]
      have hk : i - purchaseIdx start pd = (i - 1 - purchaseIdx start pd) + 1 := by omega
      rw [hk]
      rfl
  · intro hc i
    unfold plannedOutstandingLoan
    by_cases hact : purchaseActive start pd
    · rw [if_pos hact, hc, if_neg (lt_irrefl 0)]
    · rw [if_neg hact]

set_option maxRecDepth 8000 in
theorem claim3_witness :
    (0 : ℚ) ≤ 1200 ∧ 5 ≤ 5 ∧ 5 ≤ 30 ∧ (0 : ℚ) < (5 / 2 : ℚ) / 100 / 12 ∧
    purchaseActive 0 (Date.mk 0 1) ∧
    plannedOutstandingLoan 0 (Date.mk 0 1) 1200 (5 / 2) (monthly_mortgage 1200 5 (5 / 2))
        (purchaseIdx 0 (Date.mk 0 1)) = 1200 :=
  ⟨by norm_num, by norm_num, by norm_num, by norm_num, by decide,
    ((claim3_amortization 1200 5 (5 / 2) 0 (Date.mk 0 1) (by norm_num) (by norm_num)
        (by norm_num)).2.2.1 (by norm_num) (by decide)).1⟩

/-- C6: in planned-purchase mode the mortgage column is 0 strictly before
the snapped purchase index, equals the computed level payment from that
index through month 71, and the down payment plus total taxes/fees are
injected into exactly that month's one-time-expense sum; when the purchase
date is beyond the last projection month every housing field (mortgage,
property value, outstanding loan, equity, injected one-time costs) is 0 on
all 72 months and the (total) computation raises nothing. -/
theorem claim6_planned_gating (P : Params) (pd : Date) (hp dpp : ℚ) (ly : ℕ) (ir : ℚ)
    (b : BuyerStatus) (lf oFees : ℚ)
    (hH : P.housing = Housing.planned pd hp dpp ly ir b lf oFees) :
    (pd.month < P.start + 72 →
      (∀ i, i < purchaseIdx P.start pd → MonthlyMortgage P i = 0) ∧
      (∀ i, purchaseIdx P.start pd ≤ i → i < 72 →
        MonthlyMortgage P i = monthly_mortgage (loan_amount hp dpp) ly ir) ∧
      OneTimeExpenses P (purchaseIdx P.start pd) =
        (down_payment hp dpp + total_taxes_fees hp b lf oFees) +
          userOneTime P (purchaseIdx P.start pd) ∧
      (∀ i, i ≠ purchaseIdx P.start pd → housingOneTime P i = 0)) ∧
    (P.start + 71 < pd.month →
      ∀ i, i < 72 →
        MonthlyMortgage P i = 0 ∧
        PropertyValue P i = 0 ∧
        OutstandingLoanCol P i = some 0 ∧
        PropertyEquity P i = some 0 ∧
        housingOneTime P i = 0 ∧
        OneTimeExpenses P i = userOneTime P i) := by
  constructor
  · intro hin
    have hact : purchaseActive P.start pd := (purchaseActive_iff P.start pd).mpr hin
    refine ⟨?_, ?_, ?_, ?_⟩
    · intro i hi
      simp only [MonthlyMortgage, hH]
      rw [if_pos hact,
        if_neg (by rw [purchaseMonthSnapped_le_iff P.start pd hin i]; omega)]
    · intro i hpi hi
      simp only [MonthlyMortgage, hH]
      rw [if_pos hact, if_pos ((purchaseMonthSnapped_le_iff P.start pd hin i).mpr hpi)]
    · simp only [OneTimeExpenses, housingOneTime, hH]
      rw [if_pos hact,
        if_pos ((purchaseMonthSnapped_eq_monthEnd_iff P.start pd hin _).mpr rfl)]
    · intro i hne
      simp only [housingOneTime, hH]
      rw [if_pos hact,
        if_neg fun hcontra =>
          hne ((purchaseMonthSnapped_eq_monthEnd_iff P.start pd hin i).mp hcontra).symm]
  · intro hout i hi
    have hnact : ¬purchaseActive P.start pd := by
      rw [purchaseActive_iff]
      omega
    have hh0 : housingOneTime P i = 0 := by
      simp only [housingOneTime, hH]
      rw [if_neg hnact]
    refine ⟨?_, ?_, ?_, ?_, hh0, ?_⟩
    · simp only [MonthlyMortgage, hH]
      rw [if_neg hnact]
    · simp only [PropertyValue, hH, plannedPropertyValue]
      rw [if_neg hnact]
    · simp only [OutstandingLoanCol, hH, plannedOutstandingLoan]
      rw [if_neg hnact]
    · simp only [PropertyEquity, hH]
      rw [if_neg hnact]
    · unfold OneTimeExpenses
      rw [hh0, zero_add]

set_option maxRecDepth 8000 in
theorem claim6_witness :
    (Date.mk 3 15).month < c6Params.start + 72 ∧
    MonthlyMortgage c6Params 2 = 0 ∧
    MonthlyMortgage c6Params 3 = monthly_mortgage (loan_amount 1000000 25) 20 (5 / 2) ∧
    OneTimeExpenses c6Params (purchaseIdx c6Params.start (Date.mk 3 15)) =
      (down_payment 1000000 25 +
        total_taxes_fees 1000000 BuyerStatus.citizenFirstHome 6000 2000) +
        userOneTime c6Params (purchaseIdx c6Params.start (Date.mk 3 15)) := by
  have h := (claim6_planned_gating c6Params (Date.mk 3 15) 1000000 25 20 (5 / 2)
    BuyerStatus.citizenFirstHome 6000 2000 rfl).1 (by decide)
  exact ⟨by decide, h.1 2 (by decide), h.2.1 3 (by decide) (by norm_num), h.2.2.1⟩

end FinPlanner
